import Mathlib

/-!
# Verification of the mcp-open-library tool layer

Shallow embedding of the MCP Open Library server's tool handlers
(`get_book_by_title`, `get_authors_by_name`, `get_author_info`,
`get_author_photo`, `get_book_cover`, `get_book_by_id`), their zod
argument schemas, and their error classification, translated from the
TypeScript sources.  Handlers are modelled as pure functions from a raw
JavaScript argument value and the outcome of the (at most one) HTTP GET
they would perform, to the list of requests issued plus the returned
`CallToolResult` or thrown `McpError`.
-/

set_option autoImplicit false

namespace OpenLibrary

/-! ## JSON values

`Json` models the JSON values that `JSON.stringify` can produce.  There is
no `undefined` constructor: `JSON.stringify` drops object entries whose
value is `undefined`, and the embedding performs that dropping when an
object is built.  `render` is a compact serializer; the `null, 2`
pretty-printing arguments of `JSON.stringify` only insert whitespace,
which no claim depends on, so the serialized text is modelled without it.
-/

inductive Json where
  | null
  | str (s : String)
  | num (n : Int)
  | boolean (b : Bool)
  | arr (elems : List Json)
  | obj (fields : List (String × Json))

/-- Escape a string for JSON output (quote and backslash; other characters
are passed through, which is faithful for the identifier-like strings the
claims use). -/
def jsonEscape (s : String) : String :=
  s.foldl (fun acc c =>
    if c = '"' then acc ++ "\\\""
    else if c = '\\' then acc ++ "\\\\"
    else acc.push c) ""

mutual

/-- Compact JSON serialization of a value. -/
def Json.render : Json → String
  | .null => "null"
  | .str s => "\"" ++ jsonEscape s ++ "\""
  | .num n => toString n
  | .boolean b => if b then "true" else "false"
  | .arr elems => "[" ++ Json.renderList elems ++ "]"
  | .obj fields => "\x7b" ++ Json.renderFields fields ++ "\x7d"

/-- Serialize array elements, comma separated. -/
def Json.renderList : List Json → String
  | [] => ""
  | [x] => x.render
  | x :: xs => x.render ++ "," ++ Json.renderList xs

/-- Serialize object fields, comma separated. -/
def Json.renderFields : List (String × Json) → String
  | [] => ""
  | [(k, v)] => "\"" ++ jsonEscape k ++ "\":" ++ v.render
  | (k, v) :: xs => "\"" ++ jsonEscape k ++ "\":" ++ v.render ++ "," ++ Json.renderFields xs

end

/-- The keys of a JSON object (in order); `[]` on non-objects. -/
def Json.objKeys : Json → List String
  | .obj fields => fields.map Prod.fst
  | _ => []

/-- Look up a field of a JSON object by key (first occurrence). -/
def Json.lookup (j : Json) (k : String) : Option Json :=
  match j with
  | .obj fields => (fields.find? (fun kv => kv.1 = k)).map Prod.snd
  | _ => none

/-! ## Raw JavaScript argument values

The handlers receive `args: unknown`.  `JsValue` models the JavaScript
values relevant to zod validation, including `undefined` (a missing
object property reads as `undefined`). -/

inductive JsValue where
  | undefVal
  | null
  | str (s : String)
  | num (n : Int)
  | boolean (b : Bool)
  | arr (elems : List JsValue)
  | obj (fields : List (String × JsValue))

/-- `typeof`-style type name used in zod's "Expected …, received …" messages
(zod reports `null` and `array` specially). -/
def JsValue.typeName : JsValue → String
  | .undefVal => "undefined"
  | .null => "null"
  | .str _ => "string"
  | .num _ => "number"
  | .boolean _ => "boolean"
  | .arr _ => "array"
  | .obj _ => "object"

/-- Reading a property of a JavaScript object: the first binding for the
key, or `undefined` when the key is absent. -/
def JsValue.getField (fields : List (String × JsValue)) (k : String) : JsValue :=
  match fields.find? (fun kv => kv.1 = k) with
  | some kv => kv.2
  | none => .undefVal

/-! ## zod validation

A zod issue carries a path and a message; `safeParse` failure in every
handler is rendered as
`errors.map(e => e.path.join(".") + ": " + e.message).join(", ")`. -/

structure Issue where
  path : List String
  message : String
  deriving Repr, DecidableEq

/-- The per-issue rendering `e.path.join(".") + ": " + e.message`. -/
def Issue.format (i : Issue) : String :=
  String.intercalate "." i.path ++ ": " ++ i.message

/-- The joined error string built by every handler from a failed parse. -/
def formatIssues (issues : List Issue) : String :=
  String.intercalate ", " (issues.map Issue.format)

/-- ASCII lowercasing, modelling `String.prototype.toLowerCase` on the
identifier alphabets that occur here (character-by-character `toLower`). -/
def jsToLower (s : String) : String :=
  ⟨s.data.map Char.toLower⟩

/-- The regex `^OL\d+A$` used for author keys / author OLIDs:
`OL`, one or more digits, then `A`. -/
def isOLAuthorKeyFormat (s : String) : Bool :=
  match s.data with
  | 'O' :: 'L' :: rest =>
    decide (rest.takeWhile Char.isDigit ≠ []) &&
      decide (rest.dropWhile Char.isDigit = ['A'])
  | _ => false

/-- `z.string()` with a list of checks (each check yields its custom
message on failure).  zod runs every check and reports one issue per
failed check; a missing field is `invalid_type` with received `undefined`,
rendered as `Required`. -/
def zodString (field : String) (checks : List (String → Option String)) :
    JsValue → Except (List Issue) String
  | .undefVal => .error [⟨[field], "Required"⟩]
  | .str s =>
    match checks.filterMap (fun c => (c s).map (fun m => (⟨[field], m⟩ : Issue))) with
    | [] => .ok s
    | issues => .error issues
  | v => .error [⟨[field], "Expected string, received " ++ v.typeName⟩]

/-- The `.min(1, msg)` check. -/
def minLen1Check (msg : String) (s : String) : Option String :=
  if s.length < 1 then some msg else none

/-- A `.regex(re, msg)` check given a decidable match function. -/
def regexCheck (test : String → Bool) (msg : String) (s : String) : Option String :=
  if test s then none else some msg

/-- Collect the results of the field parsers of a `z.object`: all issues in
field-declaration order, or the tuple of successes. -/
def zObject2 {α β : Type} (a : Except (List Issue) α) (b : Except (List Issue) β) :
    Except (List Issue) (α × β) :=
  match a, b with
  | .ok x, .ok y => .ok (x, y)
  | .error e, .ok _ => .error e
  | .ok _, .error e => .error e
  | .error e₁, .error e₂ => .error (e₁ ++ e₂)

/-- Three-field variant of `zObject2`. -/
def zObject3 {α β γ : Type} (a : Except (List Issue) α) (b : Except (List Issue) β)
    (c : Except (List Issue) γ) : Except (List Issue) (α × β × γ) :=
  match zObject2 a (zObject2 b c) with
  | .ok x => .ok x
  | .error e => .error e

/-- The issue produced by a `z.object(...)` schema on a non-object input:
path `[]`, message `Expected object, received <type>`. -/
def nonObjectIssue (v : JsValue) : List Issue :=
  [⟨[], "Expected object, received " ++ v.typeName⟩]

/-! ### The six argument schemas -/

/-- `GetBookByTitleArgsSchema`:
`z.object({ title: z.string().min(1, "Title cannot be empty") })`. -/
def validateGetBookByTitleArgs : JsValue → Except (List Issue) String
  | .obj fields =>
    zodString "title" [minLen1Check "Title cannot be empty"]
      (JsValue.getField fields "title")
  | v => .error (nonObjectIssue v)

/-- `GetAuthorsByNameArgsSchema`:
`z.object({ name: z.string().min(1, "Author name cannot be empty") })`. -/
def validateGetAuthorsByNameArgs : JsValue → Except (List Issue) String
  | .obj fields =>
    zodString "name" [minLen1Check "Author name cannot be empty"]
      (JsValue.getField fields "name")
  | v => .error (nonObjectIssue v)

/-- `GetAuthorInfoArgsSchema`: `author_key` is a string with `.min(1)` and
`.regex(/^OL\d+A$/)`, each with a custom message. -/
def validateGetAuthorInfoArgs : JsValue → Except (List Issue) String
  | .obj fields =>
    zodString "author_key"
      [minLen1Check "Author key cannot be empty",
       regexCheck isOLAuthorKeyFormat "Author key must be in the format OL<number>A"]
      (JsValue.getField fields "author_key")
  | v => .error (nonObjectIssue v)

/-- `GetAuthorPhotoArgsSchema`: `olid` is a string with `.min(1)` and
`.regex(/^OL\d+A$/)`, each with a custom message. -/
def validateGetAuthorPhotoArgs : JsValue → Except (List Issue) String
  | .obj fields =>
    zodString "olid"
      [minLen1Check "OLID cannot be empty",
       regexCheck isOLAuthorKeyFormat "OLID must be in the format OL<number>A"]
      (JsValue.getField fields "olid")
  | v => .error (nonObjectIssue v)

/-- The allowed `key` values of `get_book_cover`. -/
def bookCoverKeys : List String := ["ISBN", "OCLC", "LCCN", "OLID", "ID"]

/-- The `key` field of `GetBookCoverArgsSchema`: an enum with a custom
`errorMap`, so every failure kind (missing, wrong type, not in the enum)
reports the single custom message. -/
def coverKeyField (v : JsValue) : Except (List Issue) String :=
  match v with
  | .str s =>
    if s ∈ bookCoverKeys then .ok s
    else .error [⟨["key"], "Key must be one of ISBN, OCLC, LCCN, OLID, ID"⟩]
  | _ => .error [⟨["key"], "Key must be one of ISBN, OCLC, LCCN, OLID, ID"⟩]

/-- The `size` field of `GetBookCoverArgsSchema`:
`z.nullable(z.enum(["S","M","L"])).optional().transform(val => val || "L")` —
absent and `null` both become `"L"`. -/
def coverSizeField (v : JsValue) : Except (List Issue) String :=
  match v with
  | .undefVal => .ok "L"
  | .null => .ok "L"
  | .str s =>
    if s ∈ ["S", "M", "L"] then .ok s
    else .error
      [⟨["size"], "Invalid enum value. Expected 'S' | 'M' | 'L', received '" ++ s ++ "'"⟩]
  | w => .error [⟨["size"], "Expected 'S' | 'M' | 'L', received " ++ w.typeName⟩]

/-- `GetBookCoverArgsSchema` over fields `key`, `value`, `size`
(in declaration order). -/
def validateGetBookCoverArgs : JsValue → Except (List Issue) (String × String × String)
  | .obj fields =>
    zObject3
      (coverKeyField (JsValue.getField fields "key"))
      (zodString "value" [minLen1Check "Value cannot be empty"]
        (JsValue.getField fields "value"))
      (coverSizeField (JsValue.getField fields "size"))
  | v => .error (nonObjectIssue v)

/-- The allowed (lower-cased) `idType` values of `get_book_by_id`. -/
def bookIdTypes : List String := ["isbn", "lccn", "oclc", "olid"]

/-- The `idType` field of `GetBookByIdArgsSchema`:
`z.string().transform(v => v.toLowerCase()).pipe(z.enum([...], errorMap))` —
string errors first, then the lower-cased value is checked against the
enum, whose custom `errorMap` supplies the message. -/
def idTypeField (v : JsValue) : Except (List Issue) String :=
  match v with
  | .undefVal => .error [⟨["idType"], "Required"⟩]
  | .str s =>
    if jsToLower s ∈ bookIdTypes then .ok (jsToLower s)
    else .error [⟨["idType"], "idType must be one of: isbn, lccn, oclc, olid"⟩]
  | w => .error [⟨["idType"], "Expected string, received " ++ w.typeName⟩]

/-- `GetBookByIdArgsSchema` over fields `idType`, `idValue`. -/
def validateGetBookByIdArgs : JsValue → Except (List Issue) (String × String)
  | .obj fields =>
    zObject2
      (idTypeField (JsValue.getField fields "idType"))
      (zodString "idValue" [minLen1Check "idValue cannot be empty"]
        (JsValue.getField fields "idValue"))
  | v => .error (nonObjectIssue v)

/-! ## Handler results and the HTTP model -/

/-- MCP error codes used by this server. -/
inductive McpErrorCode where
  | invalidParams
  | methodNotFound
  deriving Repr, DecidableEq

/-- The `CallToolResult` every handler returns: a single text content item,
and the `isError` flag (`false` models the flag being absent — no handler
ever writes `isError: false` explicitly). -/
structure CallToolResult where
  text : String
  isError : Bool
  deriving Repr, DecidableEq

/-- A handler either throws an `McpError` (modelled as `fault`) or returns
a `CallToolResult`. -/
inductive ToolOutcome where
  | fault (code : McpErrorCode) (message : String)
  | result (r : CallToolResult)
  deriving Repr, DecidableEq

/-- One HTTP GET issued through the axios instance. -/
structure HttpRequest where
  path : String
  params : List (String × String)
  deriving Repr, DecidableEq

/-- The response status data available on an axios error
(`error.response`); when the request failed without a response (network
error) the whole structure is absent. -/
structure ErrResponse where
  status : Int
  statusText : String
  deriving Repr, DecidableEq

/-- Outcome of the single `axiosInstance.get` a handler performs:
it resolves with a (possibly falsy, hence `Option`) `data` payload, or
rejects with an axios error (`axios.isAxiosError` true, optional
`response`), or rejects with an ordinary `Error` (which also models an
unexpected exception thrown while processing the response). -/
inductive HttpOutcome (α : Type) where
  | success (data : Option α)
  | axiosError (response : Option ErrResponse) (message : String)
  | jsError (message : String)

/-- A handler run: the GET requests issued (none when validation fails,
exactly one otherwise) and the outcome. -/
structure HandlerRun where
  requests : List HttpRequest
  outcome : ToolOutcome
  deriving Repr, DecidableEq

/-- `error.response?.statusText ?? error.message`. -/
def axiosFallbackText (response : Option ErrResponse) (message : String) : String :=
  match response with
  | some r => r.statusText
  | none => message

/-- `error.response?.status === 404`. -/
def isStatus404 (response : Option ErrResponse) : Bool :=
  match response with
  | some r => r.status = 404
  | none => false

/-! ## `get_author_photo` — pure URL construction -/

/-- `handleGetAuthorPhoto` (src/tools/get-author-photo/index.ts): validate,
then return `https://covers.openlibrary.org/a/olid/<olid>-L.jpg`.
No network access at all. -/
def handleGetAuthorPhoto (args : JsValue) : HandlerRun :=
  match validateGetAuthorPhotoArgs args with
  | .error issues =>
    ⟨[], .fault .invalidParams
      ("Invalid arguments for get_author_photo: " ++ formatIssues issues)⟩
  | .ok olid =>
    ⟨[], .result ⟨"https://covers.openlibrary.org/a/olid/" ++ olid ++ "-L.jpg", false⟩⟩

/-! ## `get_book_cover` — pure URL construction -/

/-- `handleGetBookCover` (the get-book-cover tool source): validate, then
return `https://covers.openlibrary.org/b/<key.toLowerCase()>/<value>-<size>.jpg`.
No network access at all. -/
def handleGetBookCover (args : JsValue) : HandlerRun :=
  match validateGetBookCoverArgs args with
  | .error issues =>
    ⟨[], .fault .invalidParams
      ("Invalid arguments for get_book_cover: " ++ formatIssues issues)⟩
  | .ok (key, value, size) =>
    ⟨[], .result ⟨"https://covers.openlibrary.org/b/" ++ jsToLower key ++ "/" ++
      value ++ "-" ++ size ++ ".jpg", false⟩⟩

/-! ## `get_book_by_title` -/

/-- One `docs` entry of the Open Library search response (fields the
handler reads; `Option` models an absent/undefined JSON field). -/
structure OLSearchDoc where
  title : String
  author_name : Option (List String)
  first_publish_year : Option Int
  key : String
  edition_count : Option Int
  cover_i : Option Int

/-- The search response body; fields other than `docs` (`numFound`, …) are
never read by the handler and are omitted. `docs` is `Option` because the
handler checks `!response.data.docs`. -/
structure OLSearchResponse where
  docs : Option (List OLSearchDoc)

/-- `x || d` on a JavaScript number: `0` is falsy. -/
def jsOrNum (v : Option Int) (d : Int) : Int :=
  match v with
  | some n => if n = 0 then d else n
  | none => d

/-- `doc.first_publish_year || null` as a JSON value. -/
def jsNumOrNull (v : Option Int) : Json :=
  match v with
  | some n => if n = 0 then Json.null else Json.num n
  | none => Json.null

/-- `if (doc.cover_i)` — JavaScript truthiness of the optional number. -/
def coverITruthy (v : Option Int) : Bool :=
  match v with
  | some n => n ≠ 0
  | none => false

/-- The `BookInfo` object built for one search doc, in the insertion order
of the source (`cover_url` is assigned after construction, hence last, and
only when `doc.cover_i` is truthy). -/
def bookInfoJson (doc : OLSearchDoc) : Json :=
  .obj ([("title", .str doc.title),
    ("authors", .arr ((doc.author_name.getD []).map Json.str)),
    ("first_publish_year", jsNumOrNull doc.first_publish_year),
    ("open_library_work_key", .str doc.key),
    ("edition_count", .num (jsOrNum doc.edition_count 0))] ++
    (if coverITruthy doc.cover_i then
      [("cover_url", .str ("https://covers.openlibrary.org/b/id/" ++
        toString (doc.cover_i.getD 0) ++ "-M.jpg"))]
    else []))

/-- `handleGetBookByTitle` (src/tools/get-book-by-title.ts): validate,
GET `/search.json?title=…`, then the empty / non-empty split, mapping
every doc through `bookInfoJson`; the catch branch classifies axios
errors versus other errors and sets `isError: true`.
(The `Array.isArray(response.data.docs)` guard is always true once the
length check has passed and is therefore not represented.) -/
def handleGetBookByTitle (args : JsValue) (http : HttpOutcome OLSearchResponse) :
    HandlerRun :=
  match validateGetBookByTitleArgs args with
  | .error issues =>
    ⟨[], .fault .invalidParams
      ("Invalid arguments for get_book_by_title: " ++ formatIssues issues)⟩
  | .ok title =>
    let req : HttpRequest := ⟨"/search.json", [("title", title)]⟩
    match http with
    | .success data =>
      match data with
      | none =>
        ⟨[req], .result ⟨"No books found matching title: \"" ++ title ++ "\"", false⟩⟩
      | some body =>
        match body.docs with
        | none =>
          ⟨[req], .result ⟨"No books found matching title: \"" ++ title ++ "\"", false⟩⟩
        | some docs =>
          if docs.length = 0 then
            ⟨[req], .result ⟨"No books found matching title: \"" ++ title ++ "\"", false⟩⟩
          else
            ⟨[req], .result ⟨Json.render (.arr (docs.map bookInfoJson)), false⟩⟩
    | .axiosError response message =>
      ⟨[req], .result ⟨"Error processing request: " ++ axiosFallbackText response message,
        true⟩⟩
    | .jsError message =>
      ⟨[req], .result ⟨"Error processing request: " ++ message, true⟩⟩

/-! ## `get_authors_by_name` -/

/-- One `docs` entry of the author search response (fields the mapper
copies). -/
structure OLAuthorDoc where
  key : String
  name : String
  alternate_names : Option (List String)
  birth_date : Option String
  top_work : Option String
  work_count : Int

/-- The author search response body (`docs` only; the other fields are
never read). -/
structure OLAuthorSearchResponse where
  docs : Option (List OLAuthorDoc)

/-- The `AuthorInfo` record the mapper builds: the six fields copied
verbatim from the doc, `Option` fields staying `undefined` when the source
is `undefined` (no defaults). -/
structure AuthorInfo where
  key : String
  name : String
  alternate_names : Option (List String)
  birth_date : Option String
  top_work : Option String
  work_count : Int

/-- The mapper `doc => ({ key, name, alternate_names, birth_date,
top_work, work_count })`. -/
def authorInfoOf (doc : OLAuthorDoc) : AuthorInfo :=
  ⟨doc.key, doc.name, doc.alternate_names, doc.birth_date, doc.top_work, doc.work_count⟩

/-- `JSON.stringify` of one `AuthorInfo`: entries in insertion order,
`undefined`-valued entries dropped. -/
def authorInfoJson (a : AuthorInfo) : Json :=
  .obj ([("key", .str a.key), ("name", .str a.name)] ++
    (a.alternate_names.map (fun l => ("alternate_names", Json.arr (l.map Json.str)))).toList ++
    (a.birth_date.map (fun d => ("birth_date", Json.str d))).toList ++
    (a.top_work.map (fun w => ("top_work", Json.str w))).toList ++
    [("work_count", .num a.work_count)])

/-- `handleGetAuthorsByName` (src/tools/get-authors-by-name/index.ts):
validate, GET `/search/authors.json?q=…`, empty / non-empty split, map
every doc; axios errors give `Open Library API error: …`, other errors
`Error processing request: …`, both with `isError: true`. -/
def handleGetAuthorsByName (args : JsValue) (http : HttpOutcome OLAuthorSearchResponse) :
    HandlerRun :=
  match validateGetAuthorsByNameArgs args with
  | .error issues =>
    ⟨[], .fault .invalidParams
      ("Invalid arguments for get_authors_by_name: " ++ formatIssues issues)⟩
  | .ok name =>
    let req : HttpRequest := ⟨"/search/authors.json", [("q", name)]⟩
    match http with
    | .success data =>
      match data with
      | none =>
        ⟨[req], .result ⟨"No authors found matching name: \"" ++ name ++ "\"", false⟩⟩
      | some body =>
        match body.docs with
        | none =>
          ⟨[req], .result ⟨"No authors found matching name: \"" ++ name ++ "\"", false⟩⟩
        | some docs =>
          if docs.length = 0 then
            ⟨[req], .result ⟨"No authors found matching name: \"" ++ name ++ "\"", false⟩⟩
          else
            ⟨[req], .result
              ⟨Json.render (.arr (docs.map (fun d => authorInfoJson (authorInfoOf d)))),
                false⟩⟩
    | .axiosError response message =>
      ⟨[req], .result ⟨"Open Library API error: " ++ axiosFallbackText response message,
        true⟩⟩
    | .jsError message =>
      ⟨[req], .result ⟨"Error processing request: " ++ message, true⟩⟩

/-! ## `get_author_info`

The author record is returned to the caller as the full JSON body (after
optionally flattening `bio`), so the response `data` is modelled directly
as the field list of a JSON object; `none` models a falsy body
(`!response.data`). -/

/-- The bio-flattening step of `handleGetAuthorInfo`: when `authorData.bio`
is a (non-null) object, `authorData.bio = authorData.bio.value`; an entry
whose new value would be `undefined` (object without a `value` key, or an
array, whose `.value` is `undefined`) is subsequently dropped by
`JSON.stringify`. All other entries pass through unchanged. -/
def bioFlatten (fields : List (String × Json)) : List (String × Json) :=
  fields.filterMap (fun kv =>
    if kv.1 = "bio" then
      match kv.2 with
      | .obj inner => ((inner.find? (fun e => e.1 = "value")).map
          (fun e => ("bio", e.2)))
      | .arr _ => none
      | v => some ("bio", v)
    else some kv)

/-- `handleGetAuthorInfo` (src/tools/get-author-info/index.ts): validate,
GET `/authors/<key>.json`; a falsy body gives the `No data found…` text,
otherwise the bio-flattened record is serialized; in the catch branch a
404 gives the quoted not-found sentence, other axios errors give
`Open Library API error: …`, non-axios errors `Error processing
request: …` — all three with `isError: true`. -/
def handleGetAuthorInfo (args : JsValue)
    (http : HttpOutcome (List (String × Json))) : HandlerRun :=
  match validateGetAuthorInfoArgs args with
  | .error issues =>
    ⟨[], .fault .invalidParams
      ("Invalid arguments for get_author_info: " ++ formatIssues issues)⟩
  | .ok authorKey =>
    let req : HttpRequest := ⟨"/authors/" ++ authorKey ++ ".json", []⟩
    match http with
    | .success data =>
      match data with
      | none =>
        ⟨[req], .result ⟨"No data found for author key: \"" ++ authorKey ++ "\"", false⟩⟩
      | some fields =>
        ⟨[req], .result ⟨Json.render (.obj (bioFlatten fields)), false⟩⟩
    | .axiosError response message =>
      if isStatus404 response then
        ⟨[req], .result ⟨"Author with key \"" ++ authorKey ++ "\" not found.", true⟩⟩
      else
        ⟨[req], .result ⟨"Open Library API error: " ++ axiosFallbackText response message,
          true⟩⟩
    | .jsError message =>
      ⟨[req], .result ⟨"Error processing request: " ++ message, true⟩⟩

/-! ## `get_book_by_id` -/

/-- An author entry in a book record (`url` is never read). -/
structure OLBookAuthor where
  name : String

/-- A publisher entry in a book record. -/
structure OLBookPublisher where
  name : String

/-- The `identifiers` block of the primary data. -/
structure OLIdentifiers where
  isbn_10 : Option (List String)
  isbn_13 : Option (List String)
  lccn : Option (List String)
  oclc : Option (List String)
  openlibrary : Option (List String)

/-- The `cover` block of the primary data (small/large are never read). -/
structure OLBookCover where
  medium : Option String

/-- An `ebooks` entry of the primary data. -/
structure OLEbook where
  preview_url : Option String

/-- The primary `data` block of a record (fields the handler reads). -/
structure OLRecordData where
  url : String
  key : String
  title : String
  subtitle : Option String
  authors : Option (List OLBookAuthor)
  number_of_pages : Option Int
  identifiers : Option OLIdentifiers
  publishers : Option (List OLBookPublisher)
  publish_date : Option String
  ebooks : Option (List OLEbook)
  cover : Option OLBookCover

/-- A work reference in the nested details. -/
structure OLWorkRef where
  key : String

/-- The nested `details.details` block (fields the handler reads). -/
structure OLNestedDetails where
  authors : Option (List OLBookAuthor)
  publishers : Option (List OLBookPublisher)
  works : Option (List OLWorkRef)
  lccn : Option (List String)
  oclc_numbers : Option (List String)
  isbn_10 : Option (List String)
  isbn_13 : Option (List String)
  number_of_pages : Option Int

/-- The `details` block of a record. The handler accesses it with `?.`,
so it is modelled as optional. -/
structure OLRecordDetails where
  info_url : String
  preview_url : Option String
  details : Option OLNestedDetails

/-- One record of the volumes response. -/
structure OLBookRecord where
  data : OLRecordData
  details : Option OLRecordDetails

/-- The `/api/volumes/brief/...` response body: `records` keyed by dynamic
identifiers, in insertion order (`Object.keys` order). The unused `items`
field is omitted. -/
structure OLBookResponse where
  records : List (String × OLBookRecord)

/-- The `BookDetails` object `handleGetBookById` assembles before cleanup
(field values; `none` models `undefined`). -/
structure BookDetails where
  title : String
  subtitle : Option String
  authors : List String
  publishers : Option (List String)
  publish_date : Option String
  number_of_pages : Option Int
  isbn_13 : Option (List String)
  isbn_10 : Option (List String)
  lccn : Option (List String)
  oclc : Option (List String)
  olid : Option (List String)
  open_library_edition_key : String
  open_library_work_key : Option String
  cover_url : Option String
  info_url : String
  preview_url : Option String

/-- The field extraction of `handleGetBookById` from the first record:
`recordData` fields preferred, `recordDetails = record.details?.details`
as the `??` fallback for the overlapping fields. -/
def extractBookDetails (record : OLBookRecord) : BookDetails :=
  let recordData := record.data
  let recordDetails := record.details.bind OLRecordDetails.details
  { title := recordData.title
    subtitle := recordData.subtitle
    authors := ((recordData.authors.map (List.map OLBookAuthor.name)).getD [])
    publishers := recordData.publishers.map (List.map OLBookPublisher.name)
    publish_date := recordData.publish_date
    number_of_pages :=
      recordData.number_of_pages.or (recordDetails.bind OLNestedDetails.number_of_pages)
    isbn_13 := (recordData.identifiers.bind OLIdentifiers.isbn_13).or
      (recordDetails.bind OLNestedDetails.isbn_13)
    isbn_10 := (recordData.identifiers.bind OLIdentifiers.isbn_10).or
      (recordDetails.bind OLNestedDetails.isbn_10)
    lccn := (recordData.identifiers.bind OLIdentifiers.lccn).or
      (recordDetails.bind OLNestedDetails.lccn)
    oclc := (recordData.identifiers.bind OLIdentifiers.oclc).or
      (recordDetails.bind OLNestedDetails.oclc_numbers)
    olid := recordData.identifiers.bind OLIdentifiers.openlibrary
    open_library_edition_key := recordData.key
    open_library_work_key :=
      ((recordDetails.bind OLNestedDetails.works).bind List.head?).map OLWorkRef.key
    cover_url := recordData.cover.bind OLBookCover.medium
    info_url := (record.details.map OLRecordDetails.info_url).getD recordData.url
    preview_url := (record.details.bind OLRecordDetails.preview_url).or
      ((recordData.ebooks.bind List.head?).bind OLEbook.preview_url) }

/-- An optional object entry for `JSON.stringify`/the cleanup loop:
`undefined` values are dropped. -/
def optEntry {α : Type} (k : String) (v : Option α) (f : α → Json) :
    List (String × Json) :=
  (v.map (fun x => (k, f x))).toList

/-- The serialized `BookDetails` after the cleanup loop: entries in
declaration order, `undefined` fields dropped, and the `authors` /
`publishers` entries additionally dropped when the array is empty. -/
def bookDetailsJson (b : BookDetails) : Json :=
  .obj ([("title", .str b.title)] ++
    optEntry "subtitle" b.subtitle Json.str ++
    (if b.authors.isEmpty then []
      else [("authors", Json.arr (b.authors.map Json.str))]) ++
    (match b.publishers with
      | some l => if l.isEmpty then [] else [("publishers", Json.arr (l.map Json.str))]
      | none => []) ++
    optEntry "publish_date" b.publish_date Json.str ++
    optEntry "number_of_pages" b.number_of_pages Json.num ++
    optEntry "isbn_13" b.isbn_13 (fun l => Json.arr (l.map Json.str)) ++
    optEntry "isbn_10" b.isbn_10 (fun l => Json.arr (l.map Json.str)) ++
    optEntry "lccn" b.lccn (fun l => Json.arr (l.map Json.str)) ++
    optEntry "oclc" b.oclc (fun l => Json.arr (l.map Json.str)) ++
    optEntry "olid" b.olid (fun l => Json.arr (l.map Json.str)) ++
    [("open_library_edition_key", .str b.open_library_edition_key)] ++
    optEntry "open_library_work_key" b.open_library_work_key Json.str ++
    optEntry "cover_url" b.cover_url Json.str ++
    [("info_url", .str b.info_url)] ++
    optEntry "preview_url" b.preview_url Json.str)

/-- `handleGetBookById` (src/tools/get-book-by-id): validate (idType
lower-cased and enum-checked), GET `/api/volumes/brief/<idType>/<idValue>.json`;
empty or missing `records` gives the `No book found…` text; otherwise the
record at the first key is extracted and serialized after cleanup.  In the
catch branch a 404 reuses the `No book found…` text, other axios errors
give `API Error: …`, non-axios errors `Error processing request: …` —
none of them carries `isError`.  (The `!record` safety branch of the
source is unreachable here: the lookup of the first key of a non-empty
key list always succeeds.) -/
def handleGetBookById (args : JsValue) (http : HttpOutcome OLBookResponse) :
    HandlerRun :=
  match validateGetBookByIdArgs args with
  | .error issues =>
    ⟨[], .fault .invalidParams
      ("Invalid arguments for get_book_by_id: " ++ formatIssues issues)⟩
  | .ok (idType, idValue) =>
    let req : HttpRequest := ⟨"/api/volumes/brief/" ++ idType ++ "/" ++ idValue ++ ".json", []⟩
    match http with
    | .success data =>
      match data with
      | none =>
        ⟨[req], .result ⟨"No book found for " ++ idType ++ ": " ++ idValue, false⟩⟩
      | some body =>
        match body.records with
        | [] =>
          ⟨[req], .result ⟨"No book found for " ++ idType ++ ": " ++ idValue, false⟩⟩
        | (_, record) :: _ =>
          ⟨[req], .result ⟨Json.render (bookDetailsJson (extractBookDetails record)),
            false⟩⟩
    | .axiosError response message =>
      if isStatus404 response then
        ⟨[req], .result ⟨"No book found for " ++ idType ++ ": " ++ idValue, false⟩⟩
      else
        ⟨[req], .result ⟨"API Error: " ++ axiosFallbackText response message, false⟩⟩
    | .jsError message =>
      ⟨[req], .result ⟨"Error processing request: " ++ message, false⟩⟩

/-! ## Tool dispatch

The server's CallTool handler dispatches on the tool name to one of the
six handlers (an unknown name raises a MethodNotFound fault; no claim
concerns it, so only the six known tools are enumerated). -/

/-- The six tools of the server. -/
inductive ToolSel where
  | bookByTitle
  | authorsByName
  | authorInfo
  | authorPhoto
  | bookCover
  | bookById
  deriving Repr, DecidableEq

/-- The registered tool name. -/
def ToolSel.toolName : ToolSel → String
  | .bookByTitle => "get_book_by_title"
  | .authorsByName => "get_authors_by_name"
  | .authorInfo => "get_author_info"
  | .authorPhoto => "get_author_photo"
  | .bookCover => "get_book_cover"
  | .bookById => "get_book_by_id"

/-- What the single upstream GET of each remote-backed tool would yield;
the pure URL tools never consult it. -/
structure HttpEnv where
  search : HttpOutcome OLSearchResponse
  authorSearch : HttpOutcome OLAuthorSearchResponse
  authorGet : HttpOutcome (List (String × Json))
  volumes : HttpOutcome OLBookResponse

/-- Dispatch a tool call to its handler. -/
def runTool (t : ToolSel) (args : JsValue) (env : HttpEnv) : HandlerRun :=
  match t with
  | .bookByTitle => handleGetBookByTitle args env.search
  | .authorsByName => handleGetAuthorsByName args env.authorSearch
  | .authorInfo => handleGetAuthorInfo args env.authorGet
  | .authorPhoto => handleGetAuthorPhoto args
  | .bookCover => handleGetBookCover args
  | .bookById => handleGetBookById args env.volumes

/-- The issue list a tool's schema produces on a given argument value
(`none` when validation succeeds). -/
def toolIssues (t : ToolSel) (args : JsValue) : Option (List Issue) :=
  match t with
  | .bookByTitle =>
    (match validateGetBookByTitleArgs args with
      | .error es => some es | .ok _ => none)
  | .authorsByName =>
    (match validateGetAuthorsByNameArgs args with
      | .error es => some es | .ok _ => none)
  | .authorInfo =>
    (match validateGetAuthorInfoArgs args with
      | .error es => some es | .ok _ => none)
  | .authorPhoto =>
    (match validateGetAuthorPhotoArgs args with
      | .error es => some es | .ok _ => none)
  | .bookCover =>
    (match validateGetBookCoverArgs args with
      | .error es => some es | .ok _ => none)
  | .bookById =>
    (match validateGetBookByIdArgs args with
      | .error es => some es | .ok _ => none)

/-- An arbitrary HTTP environment, used in closed statements whose outcome
does not depend on the network. -/
def anyEnv : HttpEnv := ⟨.jsError "e", .jsError "e", .jsError "e", .jsError "e"⟩

/-! # Theorems -/

/-- A nonempty string passes the `.min(1)` length check. -/
theorem not_length_lt_one_of_ne_empty {s : String} (h : s ≠ "") : ¬ s.length < 1 := by
  intro hl
  apply h
  rw [Nat.lt_one_iff] at hl
  cases s with
  | mk data =>
    cases data with
    | nil => rfl
    | cons c cs => simp [String.length] at hl

/-- A validation failure in the first field of a three-field object schema
fails the whole parse. -/
theorem zObject3_error_left {β γ : Type} (e : List Issue)
    (b : Except (List Issue) β) (c : Except (List Issue) γ) :
    ∃ e', zObject3 (α := String) (.error e) b c = .error e' := by
  cases b <;> cases c <;> simp [zObject3, zObject2]

/-- `handleGetBookByTitle` throws the joined invalid-arguments `McpError`
and performs no request when validation fails. -/
theorem bookByTitle_fault_of_invalid {v : JsValue} {es : List Issue}
    {http : HttpOutcome OLSearchResponse}
    (h : validateGetBookByTitleArgs v = .error es) :
    handleGetBookByTitle v http = ⟨[], .fault .invalidParams
      ("Invalid arguments for get_book_by_title: " ++ formatIssues es)⟩ := by
  simp [handleGetBookByTitle, h]

/-- `handleGetAuthorsByName` throws the joined invalid-arguments `McpError`
and performs no request when validation fails. -/
theorem authorsByName_fault_of_invalid {v : JsValue} {es : List Issue}
    {http : HttpOutcome OLAuthorSearchResponse}
    (h : validateGetAuthorsByNameArgs v = .error es) :
    handleGetAuthorsByName v http = ⟨[], .fault .invalidParams
      ("Invalid arguments for get_authors_by_name: " ++ formatIssues es)⟩ := by
  simp [handleGetAuthorsByName, h]

/-- `handleGetAuthorInfo` throws the joined invalid-arguments `McpError`
and performs no request when validation fails. -/
theorem authorInfo_fault_of_invalid {v : JsValue} {es : List Issue}
    {http : HttpOutcome (List (String × Json))}
    (h : validateGetAuthorInfoArgs v = .error es) :
    handleGetAuthorInfo v http = ⟨[], .fault .invalidParams
      ("Invalid arguments for get_author_info: " ++ formatIssues es)⟩ := by
  simp [handleGetAuthorInfo, h]

/-- `handleGetAuthorPhoto` throws the joined invalid-arguments `McpError`
when validation fails. -/
theorem authorPhoto_fault_of_invalid {v : JsValue} {es : List Issue}
    (h : validateGetAuthorPhotoArgs v = .error es) :
    handleGetAuthorPhoto v = ⟨[], .fault .invalidParams
      ("Invalid arguments for get_author_photo: " ++ formatIssues es)⟩ := by
  simp [handleGetAuthorPhoto, h]

/-- `handleGetBookCover` throws the joined invalid-arguments `McpError`
when validation fails. -/
theorem bookCover_fault_of_invalid {v : JsValue} {es : List Issue}
    (h : validateGetBookCoverArgs v = .error es) :
    handleGetBookCover v = ⟨[], .fault .invalidParams
      ("Invalid arguments for get_book_cover: " ++ formatIssues es)⟩ := by
  simp [handleGetBookCover, h]

/-- `handleGetBookById` throws the joined invalid-arguments `McpError`
and performs no request when validation fails. -/
theorem bookById_fault_of_invalid {v : JsValue} {es : List Issue}
    {http : HttpOutcome OLBookResponse}
    (h : validateGetBookByIdArgs v = .error es) :
    handleGetBookById v http = ⟨[], .fault .invalidParams
      ("Invalid arguments for get_book_by_id: " ++ formatIssues es)⟩ := by
  simp [handleGetBookById, h]

/-- **C9.** Every argument value that passes validation for
`get_author_photo` or `get_book_cover` leads to no network request
(`requests = []`), a deterministically formatted URL string, and a
non-error payload (`isError` absent): the handlers reach no error outcome
and throw nothing after validation succeeds. -/
theorem c9_pure_url_handlers_safe (v w : JsValue) (olid : String)
    (kvs : String × String × String)
    (h₁ : validateGetAuthorPhotoArgs v = .ok olid)
    (h₂ : validateGetBookCoverArgs w = .ok kvs) :
    handleGetAuthorPhoto v = ⟨[], .result
      ⟨"https://covers.openlibrary.org/a/olid/" ++ olid ++ "-L.jpg", false⟩⟩ ∧
    handleGetBookCover w = ⟨[], .result
      ⟨"https://covers.openlibrary.org/b/" ++ jsToLower kvs.1 ++ "/" ++
        kvs.2.1 ++ "-" ++ kvs.2.2 ++ ".jpg", false⟩⟩ := by
  obtain ⟨k, val, sz⟩ := kvs
  exact ⟨by simp [handleGetAuthorPhoto, h₁], by simp [handleGetBookCover, h₂]⟩

/-- Witness for `c9_pure_url_handlers_safe` at concrete valid arguments. -/
theorem c9_pure_url_handlers_safe_witness :
    handleGetAuthorPhoto (.obj [("olid", .str "OL23919A")]) = ⟨[], .result
      ⟨"https://covers.openlibrary.org/a/olid/" ++ "OL23919A" ++ "-L.jpg", false⟩⟩ ∧
    handleGetBookCover (.obj [("key", .str "OLID"), ("value", .str "OL7353617M")]) =
      ⟨[], .result ⟨"https://covers.openlibrary.org/b/" ++ jsToLower "OLID" ++ "/" ++
        "OL7353617M" ++ "-" ++ "L" ++ ".jpg", false⟩⟩ :=
  c9_pure_url_handlers_safe (.obj [("olid", .str "OL23919A")])
    (.obj [("key", .str "OLID"), ("value", .str "OL7353617M")])
    "OL23919A" ("OLID", "OL7353617M", "L") rfl rfl

/-- **C7.** For every valid `get_book_cover` argument record the returned
text is `https://covers.openlibrary.org/b/<lowercased key>/<value>-<size>.jpg`
with the size defaulting to `"L"` when omitted or explicitly `null`; in
particular `key=ISBN, value=0451526538` with size omitted yields exactly
`https://covers.openlibrary.org/b/isbn/0451526538-L.jpg` and `size=S`
yields the `-S.jpg` suffix; any `key` outside the allowed set raises the
invalid-parameters fault. -/
theorem c7_book_cover_url (w : JsValue) (key value size : String)
    (h : validateGetBookCoverArgs w = .ok (key, value, size)) :
    handleGetBookCover w = ⟨[], .result ⟨"https://covers.openlibrary.org/b/" ++
      jsToLower key ++ "/" ++ value ++ "-" ++ size ++ ".jpg", false⟩⟩ ∧
    coverSizeField .undefVal = .ok "L" ∧
    coverSizeField .null = .ok "L" ∧
    handleGetBookCover (.obj [("key", .str "ISBN"), ("value", .str "0451526538")]) =
      ⟨[], .result ⟨"https://covers.openlibrary.org/b/isbn/0451526538-L.jpg", false⟩⟩ ∧
    handleGetBookCover (.obj [("key", .str "ISBN"), ("value", .str "0451526538"),
        ("size", .str "S")]) =
      ⟨[], .result ⟨"https://covers.openlibrary.org/b/isbn/0451526538-S.jpg", false⟩⟩ ∧
    (∀ (s : String) (fields : List (String × JsValue)), s ∉ bookCoverKeys →
      JsValue.getField fields "key" = .str s →
      ∃ m, (handleGetBookCover (.obj fields)).outcome = .fault .invalidParams m) := by
  refine ⟨by simp [handleGetBookCover, h], rfl, rfl, by decide, by decide, ?_⟩
  intro s fields hs hk
  have hkey : coverKeyField (JsValue.getField fields "key") =
      .error [⟨["key"], "Key must be one of ISBN, OCLC, LCCN, OLID, ID"⟩] := by
    rw [hk]
    simp [coverKeyField, hs]
  obtain ⟨e', he'⟩ := zObject3_error_left
    [⟨["key"], "Key must be one of ISBN, OCLC, LCCN, OLID, ID"⟩]
    (zodString "value" [minLen1Check "Value cannot be empty"]
      (JsValue.getField fields "value"))
    (coverSizeField (JsValue.getField fields "size"))
  have hv : validateGetBookCoverArgs (.obj fields) = .error e' := by
    simpa [validateGetBookCoverArgs, hkey] using he'
  exact ⟨_, by rw [bookCover_fault_of_invalid hv]⟩

/-- Witness for `c7_book_cover_url` at a concrete valid argument record. -/
theorem c7_book_cover_url_witness :
    handleGetBookCover (.obj [("key", .str "LCCN"), ("value", .str "93005405")]) =
      ⟨[], .result ⟨"https://covers.openlibrary.org/b/" ++ jsToLower "LCCN" ++ "/" ++
        "93005405" ++ "-" ++ "L" ++ ".jpg", false⟩⟩ :=
  (c7_book_cover_url (.obj [("key", .str "LCCN"), ("value", .str "93005405")])
    "LCCN" "93005405" "L" rfl).1

/-- **C10.** Identifier-kind matching is case-sensitive for
`get_book_cover` but case-insensitive for `get_book_by_id`: any `key`
outside the exact uppercase set (in particular the lowercase `"isbn"`
that appears in generated URLs) raises the invalid-parameters fault,
whereas `get_book_by_id` lowercases `idType` before the enum check, so
every letter-case variant of `isbn`, `lccn`, `oclc`, `olid` is accepted
and maps to the same request path. -/
theorem c10_identifier_case_sensitivity :
    (∀ (s value : String), s ∉ bookCoverKeys → value ≠ "" →
      handleGetBookCover (.obj [("key", .str s), ("value", .str value)]) =
        ⟨[], .fault .invalidParams
          "Invalid arguments for get_book_cover: key: Key must be one of ISBN, OCLC, LCCN, OLID, ID"⟩) ∧
    handleGetBookCover (.obj [("key", .str "isbn"), ("value", .str "0451526538")]) =
      ⟨[], .fault .invalidParams
        "Invalid arguments for get_book_cover: key: Key must be one of ISBN, OCLC, LCCN, OLID, ID"⟩ ∧
    (∀ (s value : String) (http : HttpOutcome OLBookResponse),
      jsToLower s ∈ bookIdTypes → value ≠ "" →
      validateGetBookByIdArgs (.obj [("idType", .str s), ("idValue", .str value)]) =
        .ok (jsToLower s, value) ∧
      (handleGetBookById (.obj [("idType", .str s), ("idValue", .str value)]) http).requests =
        [⟨"/api/volumes/brief/" ++ jsToLower s ++ "/" ++ value ++ ".json", []⟩]) ∧
    (∀ (s₁ s₂ value : String) (http : HttpOutcome OLBookResponse),
      jsToLower s₁ = jsToLower s₂ →
      handleGetBookById (.obj [("idType", .str s₁), ("idValue", .str value)]) http =
        handleGetBookById (.obj [("idType", .str s₂), ("idValue", .str value)]) http) := by
  refine ⟨?_, by decide, ?_, ?_⟩
  · intro s value hs hval
    have hlen := not_length_lt_one_of_ne_empty hval
    have hv : validateGetBookCoverArgs (.obj [("key", .str s), ("value", .str value)]) =
        .error [⟨["key"], "Key must be one of ISBN, OCLC, LCCN, OLID, ID"⟩] := by
      simp [validateGetBookCoverArgs, JsValue.getField, coverKeyField, coverSizeField,
        zodString, minLen1Check, zObject3, zObject2, hs, hlen]
    rw [bookCover_fault_of_invalid hv]
    rfl
  · intro s value http hs hval
    have hlen := not_length_lt_one_of_ne_empty hval
    have hv : validateGetBookByIdArgs (.obj [("idType", .str s), ("idValue", .str value)]) =
        .ok (jsToLower s, value) := by
      simp [validateGetBookByIdArgs, JsValue.getField, idTypeField, zodString,
        minLen1Check, zObject2, hs, hlen]
    refine ⟨hv, ?_⟩
    simp only [handleGetBookById, hv]
    split <;> first
      | rfl
      | (split <;> first | rfl | (split <;> rfl))
  · intro s₁ s₂ value http h
    simp [handleGetBookById, validateGetBookByIdArgs, JsValue.getField, idTypeField, h]

/-- Witness for `c10_identifier_case_sensitivity`: the hypotheses of its
universally quantified conjuncts discharged at concrete inputs. -/
theorem c10_identifier_case_sensitivity_witness :
    handleGetBookCover (.obj [("key", .str "Isbn"), ("value", .str "0451526538")]) =
      ⟨[], .fault .invalidParams
        "Invalid arguments for get_book_cover: key: Key must be one of ISBN, OCLC, LCCN, OLID, ID"⟩ ∧
    validateGetBookByIdArgs (.obj [("idType", .str "IsBn"), ("idValue", .str "0451526538")]) =
      .ok (jsToLower "IsBn", "0451526538") ∧
    handleGetBookById (.obj [("idType", .str "ISBN"), ("idValue", .str "0451526538")])
        (anyEnv.volumes) =
      handleGetBookById (.obj [("idType", .str "isbn"), ("idValue", .str "0451526538")])
        (anyEnv.volumes) :=
  ⟨c10_identifier_case_sensitivity.1 "Isbn" "0451526538" (by decide) (by decide),
   (c10_identifier_case_sensitivity.2.2.1 "IsBn" "0451526538" anyEnv.volumes
     (by decide) (by decide)).1,
   c10_identifier_case_sensitivity.2.2.2 "ISBN" "isbn" "0451526538" anyEnv.volumes
     (by decide)⟩

/-- **C4 (counterexample).** The claim "one entry per violated field" is
false: zod emits one issue per violated check, so the empty `olid`
(a single violated field) produces two `olid: …` entries, and the fault
message joins both — exactly as the repository's own tests expect. -/
theorem c4_counterexample :
    toolIssues .authorPhoto (.obj [("olid", .str "")]) =
      some [⟨["olid"], "OLID cannot be empty"⟩,
        ⟨["olid"], "OLID must be in the format OL<number>A"⟩] ∧
    ((toolIssues .authorPhoto (.obj [("olid", .str "")])).getD []).map Issue.path =
      [["olid"], ["olid"]] ∧
    (runTool .authorPhoto (.obj [("olid", .str "")]) anyEnv).outcome =
      .fault .invalidParams
        "Invalid arguments for get_author_photo: olid: OLID cannot be empty, olid: OLID must be in the format OL<number>A" :=
  ⟨rfl, rfl, rfl⟩

/-- **C4 (amended).** For every tool and every argument value that
violates that tool's schema, the call raises an invalid-parameters fault
before any network request is made (`requests = []`, outcome independent
of the HTTP environment), whose message contains one entry per violated
validation rule — a field violating several rules contributes several
entries, and a non-object argument contributes one entry with an empty
field path — each in the form `<field>: <reason>`, joined by `", "`. -/
theorem c4_invalid_args_fault (t : ToolSel) (v : JsValue) (es : List Issue)
    (env : HttpEnv) (h : toolIssues t v = some es) :
    runTool t v env = ⟨[], .fault .invalidParams
      ("Invalid arguments for " ++ t.toolName ++ ": " ++ formatIssues es)⟩ := by
  cases t with
  | bookByTitle =>
    simp only [toolIssues] at h
    split at h
    · next es' heq =>
      simp only [Option.some.injEq] at h
      subst h
      exact bookByTitle_fault_of_invalid heq
    · simp at h
  | authorsByName =>
    simp only [toolIssues] at h
    split at h
    · next es' heq =>
      simp only [Option.some.injEq] at h
      subst h
      exact authorsByName_fault_of_invalid heq
    · simp at h
  | authorInfo =>
    simp only [toolIssues] at h
    split at h
    · next es' heq =>
      simp only [Option.some.injEq] at h
      subst h
      exact authorInfo_fault_of_invalid heq
    · simp at h
  | authorPhoto =>
    simp only [toolIssues] at h
    split at h
    · next es' heq =>
      simp only [Option.some.injEq] at h
      subst h
      exact authorPhoto_fault_of_invalid heq
    · simp at h
  | bookCover =>
    simp only [toolIssues] at h
    split at h
    · next es' heq =>
      simp only [Option.some.injEq] at h
      subst h
      exact bookCover_fault_of_invalid heq
    · simp at h
  | bookById =>
    simp only [toolIssues] at h
    split at h
    · next es' heq =>
      simp only [Option.some.injEq] at h
      subst h
      exact bookById_fault_of_invalid heq
    · simp at h

/-- Witness for `c4_invalid_args_fault`: the empty-`olid` call to
`get_author_photo`. -/
theorem c4_invalid_args_fault_witness :
    runTool .authorPhoto (.obj [("olid", .str "")]) anyEnv =
      ⟨[], .fault .invalidParams
        ("Invalid arguments for " ++ ToolSel.toolName .authorPhoto ++ ": " ++
          formatIssues [⟨["olid"], "OLID cannot be empty"⟩,
            ⟨["olid"], "OLID must be in the format OL<number>A"⟩])⟩ :=
  c4_invalid_args_fault .authorPhoto (.obj [("olid", .str "")])
    [⟨["olid"], "OLID cannot be empty"⟩,
      ⟨["olid"], "OLID must be in the format OL<number>A"⟩] anyEnv rfl

/-- **C5.** For a valid `get_author_info` call: an upstream 404 returns
exactly `Author with key "<key>" not found.` with `isError: true`; any
other upstream failure returns `Open Library API error: ` followed by the
response status text, falling back to the exception message when no
response (hence no status text) is available. -/
theorem c5_author_info_error_messages (v : JsValue) (k : String)
    (h : validateGetAuthorInfoArgs v = .ok k) :
    (∀ (st msg : String),
      handleGetAuthorInfo v (.axiosError (some ⟨404, st⟩) msg) =
        ⟨[⟨"/authors/" ++ k ++ ".json", []⟩],
          .result ⟨"Author with key \"" ++ k ++ "\" not found.", true⟩⟩) ∧
    (∀ (s : Int) (st msg : String), s ≠ 404 →
      handleGetAuthorInfo v (.axiosError (some ⟨s, st⟩) msg) =
        ⟨[⟨"/authors/" ++ k ++ ".json", []⟩],
          .result ⟨"Open Library API error: " ++ st, true⟩⟩) ∧
    (∀ msg : String,
      handleGetAuthorInfo v (.axiosError none msg) =
        ⟨[⟨"/authors/" ++ k ++ ".json", []⟩],
          .result ⟨"Open Library API error: " ++ msg, true⟩⟩) := by
  refine ⟨fun st msg => ?_, fun s st msg hs => ?_, fun msg => ?_⟩ <;>
    simp [handleGetAuthorInfo, h, isStatus404, axiosFallbackText, *]

/-- Witness for `c5_author_info_error_messages` at a concrete key and
concrete upstream failures. -/
theorem c5_author_info_error_messages_witness :
    handleGetAuthorInfo (.obj [("author_key", .str "OL26320A")])
        (.axiosError (some ⟨404, "Not Found"⟩) "Request failed with status code 404") =
      ⟨[⟨"/authors/" ++ "OL26320A" ++ ".json", []⟩],
        .result ⟨"Author with key \"" ++ "OL26320A" ++ "\" not found.", true⟩⟩ ∧
    handleGetAuthorInfo (.obj [("author_key", .str "OL26320A")])
        (.axiosError (some ⟨500, "Internal Server Error"⟩)
          "Request failed with status code 500") =
      ⟨[⟨"/authors/" ++ "OL26320A" ++ ".json", []⟩],
        .result ⟨"Open Library API error: " ++ "Internal Server Error", true⟩⟩ ∧
    handleGetAuthorInfo (.obj [("author_key", .str "OL26320A")])
        (.axiosError none "Network Error") =
      ⟨[⟨"/authors/" ++ "OL26320A" ++ ".json", []⟩],
        .result ⟨"Open Library API error: " ++ "Network Error", true⟩⟩ :=
  ⟨(c5_author_info_error_messages (.obj [("author_key", .str "OL26320A")])
      "OL26320A" rfl).1 "Not Found" "Request failed with status code 404",
   (c5_author_info_error_messages (.obj [("author_key", .str "OL26320A")])
      "OL26320A" rfl).2.1 500 "Internal Server Error"
      "Request failed with status code 500" (by decide),
   (c5_author_info_error_messages (.obj [("author_key", .str "OL26320A")])
      "OL26320A" rfl).2.2 "Network Error"⟩

/-- **C6.** An empty or missing `docs` list makes `get_book_by_title`
return the literal text `No books found matching title: "<title>"` and
`get_authors_by_name` the literal text
`No authors found matching name: "<name>"`, in all such cases with no
`isError` flag on the payload. -/
theorem c6_empty_result_texts (v w : JsValue) (t nm : String)
    (h₁ : validateGetBookByTitleArgs v = .ok t)
    (h₂ : validateGetAuthorsByNameArgs w = .ok nm) :
    (handleGetBookByTitle v (.success none)).outcome =
      .result ⟨"No books found matching title: \"" ++ t ++ "\"", false⟩ ∧
    (handleGetBookByTitle v (.success (some ⟨none⟩))).outcome =
      .result ⟨"No books found matching title: \"" ++ t ++ "\"", false⟩ ∧
    (handleGetBookByTitle v (.success (some ⟨some []⟩))).outcome =
      .result ⟨"No books found matching title: \"" ++ t ++ "\"", false⟩ ∧
    (handleGetAuthorsByName w (.success none)).outcome =
      .result ⟨"No authors found matching name: \"" ++ nm ++ "\"", false⟩ ∧
    (handleGetAuthorsByName w (.success (some ⟨none⟩))).outcome =
      .result ⟨"No authors found matching name: \"" ++ nm ++ "\"", false⟩ ∧
    (handleGetAuthorsByName w (.success (some ⟨some []⟩))).outcome =
      .result ⟨"No authors found matching name: \"" ++ nm ++ "\"", false⟩ := by
  refine ⟨?_, ?_, ?_, ?_, ?_, ?_⟩ <;>
    simp [handleGetBookByTitle, handleGetAuthorsByName, h₁, h₂]

/-- Witness for `c6_empty_result_texts` at concrete query terms. -/
theorem c6_empty_result_texts_witness :
    (handleGetBookByTitle (.obj [("title", .str "Nonexistent Book")])
        (.success (some ⟨some []⟩))).outcome =
      .result ⟨"No books found matching title: \"" ++ "Nonexistent Book" ++ "\"", false⟩ ∧
    (handleGetAuthorsByName (.obj [("name", .str "Nobody")])
        (.success (some ⟨some []⟩))).outcome =
      .result ⟨"No authors found matching name: \"" ++ "Nobody" ++ "\"", false⟩ :=
  ⟨(c6_empty_result_texts (.obj [("title", .str "Nonexistent Book")])
      (.obj [("name", .str "Nobody")]) "Nonexistent Book" "Nobody" rfl rfl).2.2.1,
   (c6_empty_result_texts (.obj [("title", .str "Nonexistent Book")])
      (.obj [("name", .str "Nobody")]) "Nonexistent Book" "Nobody" rfl rfl).2.2.2.2.2⟩

/-- **C8.** Every non-empty author search maps each doc to a record of
exactly the six fields `key, name, alternate_names, birth_date, top_work,
work_count`, copied verbatim with no default substituted: an undefined
source field stays undefined in the record (and is therefore absent from
its JSON, whose key list is characterized below). -/
theorem c8_author_mapping_verbatim (w : JsValue) (nm : String)
    (docs : List OLAuthorDoc)
    (h : validateGetAuthorsByNameArgs w = .ok nm) (hne : docs ≠ []) :
    handleGetAuthorsByName w (.success (some ⟨some docs⟩)) =
      ⟨[⟨"/search/authors.json", [("q", nm)]⟩],
        .result ⟨Json.render (.arr (docs.map (fun d => authorInfoJson (authorInfoOf d)))),
          false⟩⟩ ∧
    (∀ d : OLAuthorDoc, authorInfoOf d =
      ⟨d.key, d.name, d.alternate_names, d.birth_date, d.top_work, d.work_count⟩) ∧
    (∀ d : OLAuthorDoc, (authorInfoJson (authorInfoOf d)).objKeys =
      ["key", "name"] ++
      (if d.alternate_names.isSome then ["alternate_names"] else []) ++
      (if d.birth_date.isSome then ["birth_date"] else []) ++
      (if d.top_work.isSome then ["top_work"] else []) ++ ["work_count"]) := by
  refine ⟨?_, fun d => rfl, fun d => ?_⟩
  · simp [handleGetAuthorsByName, h, List.length_eq_zero, hne]
  · rcases d with ⟨k, n, a, b, tw, wc⟩
    cases a <;> cases b <;> cases tw <;> rfl

/-- Witness for `c8_author_mapping_verbatim` at a concrete doc list
exercising both present and absent optional fields. -/
theorem c8_author_mapping_verbatim_witness :
    handleGetAuthorsByName (.obj [("name", .str "Tolkien")])
        (.success (some ⟨some [⟨"OL26320A", "J. R. R. Tolkien", none, some "3 January 1892",
          some "The Lord of the Rings", 648⟩]⟩)) =
      ⟨[⟨"/search/authors.json", [("q", "Tolkien")]⟩],
        .result ⟨Json.render (.arr ([⟨"OL26320A", "J. R. R. Tolkien", none,
          some "3 January 1892", some "The Lord of the Rings", 648⟩].map
            (fun d => authorInfoJson (authorInfoOf d)))), false⟩⟩ :=
  (c8_author_mapping_verbatim (.obj [("name", .str "Tolkien")]) "Tolkien"
    [⟨"OL26320A", "J. R. R. Tolkien", none, some "3 January 1892",
      some "The Lord of the Rings", 648⟩] rfl (by simp)).1

/-- **C1 (counterexample).** Two concrete outcomes refute the claimed
flag assignment: `get_author_info`'s 404 *not-found* text outcome carries
`isError: true` (the claim says not-found text outcomes do not), and
`get_book_by_id`'s operational-error outcome carries no `isError` flag at
all (the claim says exactly the operational-error outcome carries it). -/
theorem c1_counterexample :
    (handleGetAuthorInfo (.obj [("author_key", .str "OL1A")])
        (.axiosError (some ⟨404, "Not Found"⟩)
          "Request failed with status code 404")).outcome =
      .result ⟨"Author with key \"OL1A\" not found.", true⟩ ∧
    (handleGetBookById (.obj [("idType", .str "olid"), ("idValue", .str "OL1M")])
        (.axiosError (some ⟨500, "Internal Server Error"⟩)
          "Request failed with status code 500")).outcome =
      .result ⟨"API Error: Internal Server Error", false⟩ :=
  ⟨rfl, rfl⟩

/-- **C1 (amended).** For every remote-backed tool handler and every
upstream failure (axios error, with or without a response) or unexpected
processing exception (ordinary `Error`), the handler returns an ordinary
result payload rather than raising an exception.  `get_book_by_title`,
`get_authors_by_name` and `get_author_info` flag every catch-branch
outcome with `isError: true` — including `get_author_info`'s 404
not-found message — while their empty-result outcomes carry no flag;
`get_book_by_id` carries no `isError` flag on any outcome, its
operational-error and not-found outcomes included. -/
theorem c1_error_flag_classification
    (v₁ v₂ v₃ v₄ : JsValue) (t nm k : String) (idp : String × String)
    (h₁ : validateGetBookByTitleArgs v₁ = .ok t)
    (h₂ : validateGetAuthorsByNameArgs v₂ = .ok nm)
    (h₃ : validateGetAuthorInfoArgs v₃ = .ok k)
    (h₄ : validateGetBookByIdArgs v₄ = .ok idp)
    (er : Option ErrResponse) (msg : String) :
    (handleGetBookByTitle v₁ (.axiosError er msg)).outcome =
      .result ⟨"Error processing request: " ++ axiosFallbackText er msg, true⟩ ∧
    (handleGetBookByTitle v₁ (.jsError msg)).outcome =
      .result ⟨"Error processing request: " ++ msg, true⟩ ∧
    (handleGetBookByTitle v₁ (.success none)).outcome =
      .result ⟨"No books found matching title: \"" ++ t ++ "\"", false⟩ ∧
    (handleGetAuthorsByName v₂ (.axiosError er msg)).outcome =
      .result ⟨"Open Library API error: " ++ axiosFallbackText er msg, true⟩ ∧
    (handleGetAuthorsByName v₂ (.jsError msg)).outcome =
      .result ⟨"Error processing request: " ++ msg, true⟩ ∧
    (handleGetAuthorsByName v₂ (.success none)).outcome =
      .result ⟨"No authors found matching name: \"" ++ nm ++ "\"", false⟩ ∧
    (handleGetAuthorInfo v₃ (.axiosError er msg)).outcome =
      .result ⟨if isStatus404 er then "Author with key \"" ++ k ++ "\" not found."
        else "Open Library API error: " ++ axiosFallbackText er msg, true⟩ ∧
    (handleGetAuthorInfo v₃ (.jsError msg)).outcome =
      .result ⟨"Error processing request: " ++ msg, true⟩ ∧
    (handleGetAuthorInfo v₃ (.success none)).outcome =
      .result ⟨"No data found for author key: \"" ++ k ++ "\"", false⟩ ∧
    (handleGetBookById v₄ (.axiosError er msg)).outcome =
      .result ⟨if isStatus404 er then "No book found for " ++ idp.1 ++ ": " ++ idp.2
        else "API Error: " ++ axiosFallbackText er msg, false⟩ ∧
    (handleGetBookById v₄ (.jsError msg)).outcome =
      .result ⟨"Error processing request: " ++ msg, false⟩ ∧
    (handleGetBookById v₄ (.success (some ⟨[]⟩))).outcome =
      .result ⟨"No book found for " ++ idp.1 ++ ": " ++ idp.2, false⟩ := by
  obtain ⟨idt, idv⟩ := idp
  refine ⟨?_, ?_, ?_, ?_, ?_, ?_, ?_, ?_, ?_, ?_, ?_, ?_⟩ <;>
    simp [handleGetBookByTitle, handleGetAuthorsByName, handleGetAuthorInfo,
      handleGetBookById, h₁, h₂, h₃, h₄] <;>
    split <;> simp [*]

/-- Witness for `c1_error_flag_classification` at concrete arguments and
a concrete upstream 404. -/
theorem c1_error_flag_classification_witness :
    (handleGetBookByTitle (.obj [("title", .str "Dune")])
        (.axiosError (some ⟨404, "Not Found"⟩) "boom")).outcome =
      .result ⟨"Error processing request: " ++
        axiosFallbackText (some ⟨404, "Not Found"⟩) "boom", true⟩ ∧
    (handleGetAuthorInfo (.obj [("author_key", .str "OL99A")])
        (.axiosError (some ⟨404, "Not Found"⟩) "boom")).outcome =
      .result ⟨if isStatus404 (some ⟨404, "Not Found"⟩) then
          "Author with key \"" ++ "OL99A" ++ "\" not found."
        else "Open Library API error: " ++
          axiosFallbackText (some ⟨404, "Not Found"⟩) "boom", true⟩ ∧
    (handleGetBookById (.obj [("idType", .str "olid"), ("idValue", .str "OL1M")])
        (.axiosError (some ⟨404, "Not Found"⟩) "boom")).outcome =
      .result ⟨if isStatus404 (some ⟨404, "Not Found"⟩) then
          "No book found for " ++ ("olid", "OL1M").1 ++ ": " ++ ("olid", "OL1M").2
        else "API Error: " ++ axiosFallbackText (some ⟨404, "Not Found"⟩) "boom",
        false⟩ := by
  obtain ⟨a, -, -, -, -, -, b, -, -, c, -, -⟩ :=
    c1_error_flag_classification (.obj [("title", .str "Dune")])
      (.obj [("name", .str "Herbert")]) (.obj [("author_key", .str "OL99A")])
      (.obj [("idType", .str "olid"), ("idValue", .str "OL1M")])
      "Dune" "Herbert" "OL99A" ("olid", "OL1M") rfl rfl rfl rfl
      (some ⟨404, "Not Found"⟩) "boom"
  exact ⟨a, b, c⟩

/-- **C2 (counterexample).** A search doc whose `cover_i` is the number
`0` *has* a cover image id, yet the handler's JavaScript truthiness test
`if (doc.cover_i)` omits `cover_url` from its output entry, refuting the
claimed "present if and only if the source record has a cover image
id". -/
theorem c2_counterexample :
    (⟨"T", none, none, "/works/OL1W", none, some 0⟩ : OLSearchDoc).cover_i ≠ none ∧
    (bookInfoJson ⟨"T", none, none, "/works/OL1W", none, some 0⟩).lookup "cover_url" =
      none ∧
    (handleGetBookByTitle (.obj [("title", .str "T")])
        (.success (some ⟨some [⟨"T", none, none, "/works/OL1W", none, some 0⟩]⟩))).outcome =
      .result ⟨Json.render
        (.arr [bookInfoJson ⟨"T", none, none, "/works/OL1W", none, some 0⟩]), false⟩ :=
  ⟨by simp, rfl, rfl⟩

/-- **C2 (amended).** Every non-empty title search returns the JSON
serialization of an array with one entry per matching record, where each
entry has the title, the author list defaulting to `[]`, the first
publish year defaulting to `null`, the work key, the edition count
defaulting to `0`, and a `cover_url` — built from the cover id with the
fixed `-M` size suffix — present if and only if the source record has a
*truthy (nonzero)* cover image id. -/
theorem c2_title_search_mapping (v : JsValue) (t : String) (docs : List OLSearchDoc)
    (h : validateGetBookByTitleArgs v = .ok t) (hne : docs ≠ []) :
    handleGetBookByTitle v (.success (some ⟨some docs⟩)) =
      ⟨[⟨"/search.json", [("title", t)]⟩],
        .result ⟨Json.render (.arr (docs.map bookInfoJson)), false⟩⟩ ∧
    (∀ d : OLSearchDoc,
      (bookInfoJson d).lookup "title" = some (.str d.title) ∧
      (bookInfoJson d).lookup "authors" =
        some (.arr ((d.author_name.getD []).map Json.str)) ∧
      (bookInfoJson d).lookup "first_publish_year" =
        some (jsNumOrNull d.first_publish_year) ∧
      (bookInfoJson d).lookup "open_library_work_key" = some (.str d.key) ∧
      (bookInfoJson d).lookup "edition_count" =
        some (.num (jsOrNum d.edition_count 0)) ∧
      (bookInfoJson d).lookup "cover_url" =
        (if coverITruthy d.cover_i then
          some (.str ("https://covers.openlibrary.org/b/id/" ++
            toString (d.cover_i.getD 0) ++ "-M.jpg"))
        else none)) := by
  refine ⟨by simp [handleGetBookByTitle, h, List.length_eq_zero, hne], fun d => ?_⟩
  cases hc : coverITruthy d.cover_i <;>
    simp [bookInfoJson, Json.lookup, hc]

/-- Witness for `c2_title_search_mapping` at a concrete one-doc response
with a truthy cover id. -/
theorem c2_title_search_mapping_witness :
    handleGetBookByTitle (.obj [("title", .str "Test Book")])
        (.success (some ⟨some [⟨"Test Book", some ["Author One", "Author Two"],
          some 2020, "/works/test123", some 5, some 12345⟩]⟩)) =
      ⟨[⟨"/search.json", [("title", "Test Book")]⟩],
        .result ⟨Json.render (.arr ([(⟨"Test Book", some ["Author One", "Author Two"],
          some 2020, "/works/test123", some 5, some 12345⟩ : OLSearchDoc)].map
            bookInfoJson)), false⟩⟩ :=
  (c2_title_search_mapping (.obj [("title", .str "Test Book")]) "Test Book"
    [⟨"Test Book", some ["Author One", "Author Two"], some 2020, "/works/test123",
      some 5, some 12345⟩] rfl (by simp)).1

/-- The keys contributed by an optional object entry. -/
theorem optEntry_keys {α : Type} (k : String) (v : Option α) (f : α → Json) :
    (optEntry k v f).map Prod.fst = if v.isSome then [k] else [] := by
  cases v <;> rfl

/-- The keys contributed by a conditionally dropped singleton entry. -/
theorem ite_singleton_keys (c : Prop) [Decidable c] (k : String) (j : Json) :
    ((if c then ([] : List (String × Json)) else [(k, j)]).map Prod.fst) =
      if c then [] else [k] := by
  split <;> rfl

/-- **C3.** For every `get_book_by_id` response with non-empty `records`,
the output is built from the record at the first key only (the remaining
records are irrelevant); each overlapping field (page count, isbn_10,
isbn_13, lccn, oclc) is taken from the primary data block when present
and otherwise from the nested `details.details` block; and the serialized
object's key list contains a key exactly when its value is defined, with
`authors` and `publishers` additionally dropped when their array is
empty. -/
theorem c3_book_by_id_first_record (v : JsValue) (idp : String × String)
    (h : validateGetBookByIdArgs v = .ok idp)
    (k : String) (r : OLBookRecord) (rest : List (String × OLBookRecord)) :
    handleGetBookById v (.success (some ⟨(k, r) :: rest⟩)) =
      handleGetBookById v (.success (some ⟨[(k, r)]⟩)) ∧
    handleGetBookById v (.success (some ⟨(k, r) :: rest⟩)) =
      ⟨[⟨"/api/volumes/brief/" ++ idp.1 ++ "/" ++ idp.2 ++ ".json", []⟩],
        .result ⟨Json.render (bookDetailsJson (extractBookDetails r)), false⟩⟩ ∧
    (extractBookDetails r).number_of_pages =
      r.data.number_of_pages.or
        ((r.details.bind OLRecordDetails.details).bind OLNestedDetails.number_of_pages) ∧
    (extractBookDetails r).isbn_10 =
      (r.data.identifiers.bind OLIdentifiers.isbn_10).or
        ((r.details.bind OLRecordDetails.details).bind OLNestedDetails.isbn_10) ∧
    (extractBookDetails r).isbn_13 =
      (r.data.identifiers.bind OLIdentifiers.isbn_13).or
        ((r.details.bind OLRecordDetails.details).bind OLNestedDetails.isbn_13) ∧
    (extractBookDetails r).lccn =
      (r.data.identifiers.bind OLIdentifiers.lccn).or
        ((r.details.bind OLRecordDetails.details).bind OLNestedDetails.lccn) ∧
    (extractBookDetails r).oclc =
      (r.data.identifiers.bind OLIdentifiers.oclc).or
        ((r.details.bind OLRecordDetails.details).bind OLNestedDetails.oclc_numbers) ∧
    (∀ b : BookDetails, (bookDetailsJson b).objKeys =
      ["title"] ++ (if b.subtitle.isSome then ["subtitle"] else []) ++
      (if b.authors.isEmpty then [] else ["authors"]) ++
      (match b.publishers with
        | some l => if l.isEmpty then ([] : List String) else ["publishers"]
        | none => []) ++
      (if b.publish_date.isSome then ["publish_date"] else []) ++
      (if b.number_of_pages.isSome then ["number_of_pages"] else []) ++
      (if b.isbn_13.isSome then ["isbn_13"] else []) ++
      (if b.isbn_10.isSome then ["isbn_10"] else []) ++
      (if b.lccn.isSome then ["lccn"] else []) ++
      (if b.oclc.isSome then ["oclc"] else []) ++
      (if b.olid.isSome then ["olid"] else []) ++
      ["open_library_edition_key"] ++
      (if b.open_library_work_key.isSome then ["open_library_work_key"] else []) ++
      (if b.cover_url.isSome then ["cover_url"] else []) ++
      ["info_url"] ++
      (if b.preview_url.isSome then ["preview_url"] else [])) := by
  obtain ⟨idt, idv⟩ := idp
  refine ⟨by simp [handleGetBookById, h], by simp [handleGetBookById, h],
    rfl, rfl, rfl, rfl, rfl, fun b => ?_⟩
  rcases hp : b.publishers with _ | l <;>
    simp [bookDetailsJson, Json.objKeys, optEntry_keys, ite_singleton_keys, hp]

/-- Witness for `c3_book_by_id_first_record`: a concrete OLID lookup
whose record carries overlapping fields in both blocks (mirroring the
repository's Lord-of-the-Rings test fixture), plus a second record that
is provably ignored. -/
theorem c3_book_by_id_first_record_witness :
    handleGetBookById (.obj [("idType", .str "olid"), ("idValue", .str "OL7353617M")])
        (.success (some ⟨[("/books/OL7353617M",
          ⟨⟨"https://openlibrary.org/books/OL7353617M", "/books/OL7353617M",
            "The Lord of the Rings", none, some [⟨"J.R.R. Tolkien"⟩], some 1216,
            some ⟨some ["061826027X"], none, none, none, some ["OL7353617M"]⟩,
            none, some "1954", none,
            some ⟨some "https://covers.openlibrary.org/b/id/8264411-M.jpg"⟩⟩,
          some ⟨"https://openlibrary.org/books/OL7353617M",
            some "https://archive.org/details/lordofrings00tolk_1",
            some ⟨some [⟨"J.R.R. Tolkien"⟩], some [⟨"Houghton Mifflin"⟩],
              some [⟨"/works/OL45804W"⟩], none, none, some ["061826027X"], none,
              some 1216⟩⟩⟩),
          ("ignored", ⟨⟨"u", "k2", "Other", none, none, none, none, none, none,
            none, none⟩, none⟩)]⟩)) =
      handleGetBookById (.obj [("idType", .str "olid"), ("idValue", .str "OL7353617M")])
        (.success (some ⟨[("/books/OL7353617M",
          ⟨⟨"https://openlibrary.org/books/OL7353617M", "/books/OL7353617M",
            "The Lord of the Rings", none, some [⟨"J.R.R. Tolkien"⟩], some 1216,
            some ⟨some ["061826027X"], none, none, none, some ["OL7353617M"]⟩,
            none, some "1954", none,
            some ⟨some "https://covers.openlibrary.org/b/id/8264411-M.jpg"⟩⟩,
          some ⟨"https://openlibrary.org/books/OL7353617M",
            some "https://archive.org/details/lordofrings00tolk_1",
            some ⟨some [⟨"J.R.R. Tolkien"⟩], some [⟨"Houghton Mifflin"⟩],
              some [⟨"/works/OL45804W"⟩], none, none, some ["061826027X"], none,
              some 1216⟩⟩⟩)]⟩)) :=
  (c3_book_by_id_first_record
    (.obj [("idType", .str "olid"), ("idValue", .str "OL7353617M")])
    ("olid", "OL7353617M") rfl "/books/OL7353617M"
    ⟨⟨"https://openlibrary.org/books/OL7353617M", "/books/OL7353617M",
      "The Lord of the Rings", none, some [⟨"J.R.R. Tolkien"⟩], some 1216,
      some ⟨some ["061826027X"], none, none, none, some ["OL7353617M"]⟩,
      none, some "1954", none,
      some ⟨some "https://covers.openlibrary.org/b/id/8264411-M.jpg"⟩⟩,
    some ⟨"https://openlibrary.org/books/OL7353617M",
      some "https://archive.org/details/lordofrings00tolk_1",
      some ⟨some [⟨"J.R.R. Tolkien"⟩], some [⟨"Houghton Mifflin"⟩],
        some [⟨"/works/OL45804W"⟩], none, none, some ["061826027X"], none,
        some 1216⟩⟩⟩
    [("ignored", ⟨⟨"u", "k2", "Other", none, none, none, none, none, none,
      none, none⟩, none⟩)]).1

end OpenLibrary
